import Mathlib

/-!
Shallow embedding of the `gee` geometry crate's affine transform subsystem:
`Vector`, `Point`, `Angle`, `Transform` (2D affine, 3x2 row-major),
`Transform3d` (4x4 row-major), `Rect` and `Quad`.  The generic scalar
`T : en::Float` is modelled by the real numbers; `atan2(y, x)` (used by
`Angle::from_xy`) is modelled by `Complex.arg ⟨x, y⟩`, whose range `(-π, π]`
matches the float `atan2`.
-/

set_option autoImplicit false

namespace Gee

open Real

noncomputable section

/-- `Vector<T>` from `src/vector.rs`: a free 2D vector `{dx, dy}`. -/
structure Vector where
  dx : ℝ
  dy : ℝ

/-- `Point<T>` from `src/point.rs`: a 2D point `{x, y}`. -/
structure Point where
  x : ℝ
  y : ℝ

/-- `Angle<T>` from `src/angle.rs`: a wrapper holding radians. -/
structure Angle where
  radians : ℝ

/-- `Angle::from_radians`. -/
def Angle.from_radians (r : ℝ) : Angle := ⟨r⟩

/-- `Angle::ZERO()`. -/
def Angle.ZERO : Angle := ⟨0⟩

/-- `Angle::FRAC_PI_2()`: the constant `π/2`. -/
def Angle.FRAC_PI_2 : Angle := ⟨π / 2⟩

/-- `Angle::from_xy(x, y) = from_radians((-y).atan2(x))`; `atan2(-y, x)` is
`Complex.arg (x - y*I)`. -/
def Angle.from_xy (x y : ℝ) : Angle := ⟨Complex.arg ⟨x, -y⟩⟩

/-- `Angle::normalize`: `radians - TAU * (radians/TAU + 0.5).floor()`,
with `TAU = 2π` and `0.5 = one().halved()`. -/
def Angle.normalize (a : Angle) : Angle :=
  ⟨a.radians - 2 * π * ((⌊a.radians / (2 * π) + 1 / 2⌋ : ℤ) : ℝ)⟩

/-- `Angle::sin`. -/
def Angle.sin (a : Angle) : ℝ := Real.sin a.radians

/-- `Angle::cos`. -/
def Angle.cos (a : Angle) : ℝ := Real.cos a.radians

/-- `impl Add for Angle`: addition of radians. -/
def Angle.add (a b : Angle) : Angle := ⟨a.radians + b.radians⟩

/-- `impl Sub for Angle`: subtraction of radians. -/
def Angle.sub (a b : Angle) : Angle := ⟨a.radians - b.radians⟩

/-- `Angle::map_radians(T::neg)`: negate the radians. -/
def Angle.neg (a : Angle) : Angle := ⟨-a.radians⟩

/-- `Angle::map_radians(T::abs)`: absolute value of the radians. -/
def Angle.abs_radians (a : Angle) : Angle := ⟨|a.radians|⟩

/-- `DecomposedTransform<T>` from `src/transform.rs`. -/
structure DecomposedTransform where
  translation : Vector
  scale : Vector
  rotation : Angle
  skew : Angle

/-- `Transform<T>` from `src/transform.rs`: row-major 3x2 affine matrix. -/
structure Transform where
  m11 : ℝ
  m12 : ℝ
  m21 : ℝ
  m22 : ℝ
  m31 : ℝ
  m32 : ℝ

/-- `Transform::row_major`. -/
def Transform.row_major (m11 m12 m21 m22 m31 m32 : ℝ) : Transform :=
  ⟨m11, m12, m21, m22, m31, m32⟩

/-- `Transform::identity`. -/
def Transform.identity : Transform := Transform.row_major 1 0 0 1 0 0

/-- `Transform::from_scale`: identity with `m11 = x`, `m22 = y`. -/
def Transform.from_scale (x y : ℝ) : Transform := Transform.row_major x 0 0 y 0 0

/-- `Transform::from_translation`: identity with `m31 = x`, `m32 = y`. -/
def Transform.from_translation (x y : ℝ) : Transform :=
  Transform.row_major 1 0 0 1 x y

/-- `Transform::determinant` = `m11*m22 - m12*m21`. -/
def Transform.determinant (t : Transform) : ℝ := t.m11 * t.m22 - t.m12 * t.m21

/-- `Transform::post_mul`: 3x2-homogeneous product, `self` applied first. -/
def Transform.post_mul (t mat : Transform) : Transform :=
  Transform.row_major
    (t.m11 * mat.m11 + t.m12 * mat.m21)
    (t.m11 * mat.m12 + t.m12 * mat.m22)
    (t.m21 * mat.m11 + t.m22 * mat.m21)
    (t.m21 * mat.m12 + t.m22 * mat.m22)
    (t.m31 * mat.m11 + t.m32 * mat.m21 + mat.m31)
    (t.m31 * mat.m12 + t.m32 * mat.m22 + mat.m32)

/-- `Transform::pre_mul(self, mat) = mat.post_mul(self)`. -/
def Transform.pre_mul (t mat : Transform) : Transform := mat.post_mul t

/-- `Transform::inverse`: `None` when the determinant is exactly zero,
otherwise the adjugate divided by the determinant. -/
def Transform.inverse (t : Transform) : Option Transform :=
  if t.determinant = 0 then none
  else
    some (Transform.row_major
      (1 / t.determinant * t.m22)
      (1 / t.determinant * (0 - t.m12))
      (1 / t.determinant * (0 - t.m21))
      (1 / t.determinant * t.m11)
      (1 / t.determinant * (t.m21 * t.m32 - t.m22 * t.m31))
      (1 / t.determinant * (t.m31 * t.m12 - t.m11 * t.m32)))

/-- `Vector::dot_product`. -/
def Vector.dot_product (v rhs : Vector) : ℝ := v.dx * rhs.dx + v.dy * rhs.dy

/-- `Vector::magnitude_squared = dot_product(self, self)`. -/
def Vector.magnitude_squared (v : Vector) : ℝ := v.dot_product v

/-- `Vector::magnitude = magnitude_squared().sqrt()`. -/
def Vector.magnitude (v : Vector) : ℝ := Real.sqrt v.magnitude_squared

/-- `Vector::angle = Angle::from_xy(dx, dy)`. -/
def Vector.angle (v : Vector) : Angle := Angle.from_xy v.dx v.dy

/-- `Vector::transform` from `src/vector.rs` lines 104-109: note that the
translation components `m31`, `m32` ARE added. -/
def Vector.transform (v : Vector) (t : Transform) : Vector :=
  ⟨v.dx * t.m11 + v.dy * t.m21 + t.m31,
   v.dx * t.m12 + v.dy * t.m22 + t.m32⟩

/-- `Point::zero`. -/
def Point.zero : Point := ⟨0, 0⟩

/-- `impl Add<Vector<T>> for Point<T>`. -/
def Point.add_vector (p : Point) (v : Vector) : Point :=
  ⟨p.x + v.dx, p.y + v.dy⟩

/-- `Vector::to_point = Point::zero() + self`. -/
def Vector.to_point (v : Vector) : Point := Point.zero.add_vector v

/-- `Point::to_vector`. -/
def Point.to_vector (p : Point) : Vector := ⟨p.x, p.y⟩

/-- `Point::transform = self.to_vector().transform(transform).to_point()`. -/
def Point.transform (p : Point) (t : Transform) : Point :=
  (p.to_vector.transform t).to_point

/-- `Transform::decompose` from `src/transform.rs` lines 255-283. -/
def Transform.decompose (t : Transform) : DecomposedTransform :=
  let row_x : Vector := ⟨t.m11, t.m12⟩
  let row_y : Vector := ⟨t.m21, t.m22⟩
  let row_z : Vector := ⟨t.m31, t.m32⟩
  let rotation_x := row_x.angle
  let rotation_y := row_y.angle
  let sk0 := (rotation_y.sub rotation_x).normalize
  let sk_flip : Angle × ℝ :=
    if sk0.radians < 0 then (sk0.abs_radians, 1) else (sk0, -1)
  { translation := row_z
    scale := ⟨row_x.magnitude, row_y.magnitude * sk_flip.2⟩
    rotation := rotation_x
    skew := sk_flip.1.sub Angle.FRAC_PI_2 }

/-- `Transform::from_decomposed` from `src/transform.rs` lines 121-153. -/
def Transform.from_decomposed (d : DecomposedTransform) : Transform :=
  let s1 := d.rotation.sin
  let c1 := d.rotation.cos
  let k := if d.scale.dx * d.scale.dy < 0 then d.skew else d.skew.neg
  let s2 := (d.rotation.add k).sin
  let c2 := (d.rotation.add k).cos
  Transform.row_major (c1 * d.scale.dx) (-s1 * d.scale.dx)
    (s2 * d.scale.dy) (c2 * d.scale.dy) d.translation.dx d.translation.dy

/-- `Rect<T>` from `src/rect.rs`: stored as `{top, right, bottom, left}`. -/
structure Rect where
  top : ℝ
  right : ℝ
  bottom : ℝ
  left : ℝ

/-- `Rect::from_top_right_bottom_left`. -/
def Rect.from_top_right_bottom_left (top right bottom left : ℝ) : Rect :=
  ⟨top, right, bottom, left⟩

/-- `Rect::zero`. -/
def Rect.zero : Rect := Rect.from_top_right_bottom_left 0 0 0 0

/-- `Rect::top_left`. -/
def Rect.top_left (r : Rect) : Point := ⟨r.left, r.top⟩

/-- `Rect::top_right`. -/
def Rect.top_right (r : Rect) : Point := ⟨r.right, r.top⟩

/-- `Rect::bottom_left`. -/
def Rect.bottom_left (r : Rect) : Point := ⟨r.left, r.bottom⟩

/-- `Rect::bottom_right`. -/
def Rect.bottom_right (r : Rect) : Point := ⟨r.right, r.bottom⟩

/-- `Rect::clockwise_points`: top-left, top-right, bottom-right, bottom-left. -/
def Rect.clockwise_points (r : Rect) : List Point :=
  [r.top_left, r.top_right, r.bottom_right, r.bottom_left]

/-- The running `(min_x, min_y, max_x, max_y)` state of `Rect::from_iter`. -/
structure MinMaxAcc where
  min_x : ℝ
  min_y : ℝ
  max_x : ℝ
  max_y : ℝ

/-- One iteration of the `for point in points` loop in `Rect::from_iter`. -/
def from_iter_step (acc : MinMaxAcc) (p : Point) : MinMaxAcc :=
  { min_x := if p.x < acc.min_x then p.x else acc.min_x
    min_y := if p.y < acc.min_y then p.y else acc.min_y
    max_x := if p.x > acc.max_x then p.x else acc.max_x
    max_y := if p.y > acc.max_y then p.y else acc.max_y }

/-- `Rect::from_iter` from `src/rect.rs` lines 136-165. -/
def Rect.from_iter (points : List Point) : Rect :=
  match points with
  | [] => Rect.zero
  | first :: rest =>
    let acc := rest.foldl from_iter_step
      ⟨first.x, first.y, first.x, first.y⟩
    Rect.from_top_right_bottom_left acc.min_y acc.max_x acc.max_y acc.min_x

/-- `Rect::transform` from `src/rect.rs` lines 504-509. -/
def Rect.transform (r : Rect) (t : Transform) : Rect :=
  Rect.from_iter (r.clockwise_points.map (fun p => p.transform t))

/-- `Quad<T>` from `src/quad.rs`: four unconstrained points. -/
structure Quad where
  a : Point
  b : Point
  c : Point
  d : Point

/-- `Vector4d<T>` from `src/support.rs`. -/
structure Vector4d where
  dx : ℝ
  dy : ℝ
  dz : ℝ
  dw : ℝ

/-- `Vector4d::truncate`. -/
def Vector4d.truncate (v : Vector4d) : Vector := ⟨v.dx, v.dy⟩

/-- `Transform3d<T>` from `src/transform3d.rs`: row-major 4x4 matrix. -/
structure Transform3d where
  m11 : ℝ
  m12 : ℝ
  m13 : ℝ
  m14 : ℝ
  m21 : ℝ
  m22 : ℝ
  m23 : ℝ
  m24 : ℝ
  m31 : ℝ
  m32 : ℝ
  m33 : ℝ
  m34 : ℝ
  m41 : ℝ
  m42 : ℝ
  m43 : ℝ
  m44 : ℝ

/-- `Transform3d::row_major`. -/
def Transform3d.row_major
    (m11 m12 m13 m14 m21 m22 m23 m24 m31 m32 m33 m34 m41 m42 m43 m44 : ℝ) :
    Transform3d :=
  ⟨m11, m12, m13, m14, m21, m22, m23, m24, m31, m32, m33, m34, m41, m42, m43, m44⟩

/-- `Transform3d::identity`. -/
def Transform3d.identity : Transform3d :=
  Transform3d.row_major 1 0 0 0 0 1 0 0 0 0 1 0 0 0 0 1

/-- `Transform3d::from_scale`: identity with `m11 = x`, `m22 = y`, `m33 = z`. -/
def Transform3d.from_scale (x y z : ℝ) : Transform3d :=
  Transform3d.row_major x 0 0 0 0 y 0 0 0 0 z 0 0 0 0 1

/-- `Transform3d::from_translation`: identity with `m41 = x`, `m42 = y`,
`m43 = z`. -/
def Transform3d.from_translation (x y z : ℝ) : Transform3d :=
  Transform3d.row_major 1 0 0 0 0 1 0 0 0 0 1 0 x y z 1

/-- `Transform3d::post_mul`: full 4x4 product (source uses `mul_add`, which
over exact reals is plain `a*b + c`). -/
def Transform3d.post_mul (t mat : Transform3d) : Transform3d :=
  Transform3d.row_major
    (t.m11 * mat.m11 + (t.m12 * mat.m21 + (t.m13 * mat.m31 + t.m14 * mat.m41)))
    (t.m11 * mat.m12 + (t.m12 * mat.m22 + (t.m13 * mat.m32 + t.m14 * mat.m42)))
    (t.m11 * mat.m13 + (t.m12 * mat.m23 + (t.m13 * mat.m33 + t.m14 * mat.m43)))
    (t.m11 * mat.m14 + (t.m12 * mat.m24 + (t.m13 * mat.m34 + t.m14 * mat.m44)))
    (t.m21 * mat.m11 + (t.m22 * mat.m21 + (t.m23 * mat.m31 + t.m24 * mat.m41)))
    (t.m21 * mat.m12 + (t.m22 * mat.m22 + (t.m23 * mat.m32 + t.m24 * mat.m42)))
    (t.m21 * mat.m13 + (t.m22 * mat.m23 + (t.m23 * mat.m33 + t.m24 * mat.m43)))
    (t.m21 * mat.m14 + (t.m22 * mat.m24 + (t.m23 * mat.m34 + t.m24 * mat.m44)))
    (t.m31 * mat.m11 + (t.m32 * mat.m21 + (t.m33 * mat.m31 + t.m34 * mat.m41)))
    (t.m31 * mat.m12 + (t.m32 * mat.m22 + (t.m33 * mat.m32 + t.m34 * mat.m42)))
    (t.m31 * mat.m13 + (t.m32 * mat.m23 + (t.m33 * mat.m33 + t.m34 * mat.m43)))
    (t.m31 * mat.m14 + (t.m32 * mat.m24 + (t.m33 * mat.m34 + t.m34 * mat.m44)))
    (t.m41 * mat.m11 + (t.m42 * mat.m21 + (t.m43 * mat.m31 + t.m44 * mat.m41)))
    (t.m41 * mat.m12 + (t.m42 * mat.m22 + (t.m43 * mat.m32 + t.m44 * mat.m42)))
    (t.m41 * mat.m13 + (t.m42 * mat.m23 + (t.m43 * mat.m33 + t.m44 * mat.m43)))
    (t.m41 * mat.m14 + (t.m42 * mat.m24 + (t.m43 * mat.m34 + t.m44 * mat.m44)))

/-- `Transform3d::pre_mul(self, mat) = mat.post_mul(self)`. -/
def Transform3d.pre_mul (t mat : Transform3d) : Transform3d := mat.post_mul t

/-- `Transform3d::ortho` from `src/transform3d.rs` lines 70-82. -/
def Transform3d.ortho (left right bottom top near far : ℝ) : Transform3d :=
  (Transform3d.from_scale (2 / (right - left)) (2 / (bottom - top))
      (-2 / (far - near))).post_mul
    (Transform3d.from_translation (-(right + left) / (right - left))
      (-(bottom + top) / (bottom - top)) (-(far + near) / (far - near)))

/-- `Transform3d::transform_vector4d`. -/
def Transform3d.transform_vector4d (t : Transform3d) (v : Vector4d) : Vector4d :=
  ⟨t.m11 * v.dx + t.m21 * v.dy + t.m31 * v.dz + t.m41 * v.dw,
   t.m12 * v.dx + t.m22 * v.dy + t.m32 * v.dz + t.m42 * v.dw,
   t.m13 * v.dx + t.m23 * v.dy + t.m33 * v.dz + t.m43 * v.dw,
   t.m14 * v.dx + t.m24 * v.dy + t.m34 * v.dz + t.m44 * v.dw⟩

/-- `Transform3d::transform_vector_impl`: lift to `(dx, dy, 0, 1)`. -/
def Transform3d.transform_vector_impl (t : Transform3d) (v : Vector) : Vector4d :=
  t.transform_vector4d ⟨v.dx, v.dy, 0, 1⟩

/-- `Transform3d::transform_vector`: transform then truncate to 2D. -/
def Transform3d.transform_vector (t : Transform3d) (v : Vector) : Vector :=
  (t.transform_vector_impl v).truncate

/-- `Transform3d::transform_point`. -/
def Transform3d.transform_point (t : Transform3d) (p : Point) : Point :=
  (t.transform_vector p.to_vector).to_point

/-- `Transform3d::transform_rect`: the four corners as a `Quad`. -/
def Transform3d.transform_rect (t : Transform3d) (r : Rect) : Quad :=
  { a := t.transform_point r.top_left
    b := t.transform_point r.top_right
    c := t.transform_point r.bottom_right
    d := t.transform_point r.bottom_left }

/-- `impl From<Transform<T>> for Transform3d<T>` from `src/transform3d.rs`
lines 276-297: the 2D linear part goes to the upper-left 2x2 block and the
2D translation to `(m41, m42)`. -/
def Transform3d.from_transform (t : Transform) : Transform3d :=
  Transform3d.row_major t.m11 t.m12 0 0 t.m21 t.m22 0 0 0 0 1 0 t.m31 t.m32 0 1

end

/-- C1 (counterexample): the claim that `Vector::transform` ignores the
translation components fails at `v = (0,0)`, `t = from_translation(1,2)`:
the code produces `dx = 1`, the claimed formula `v.dx*m11 + v.dy*m21`
gives `0`. -/
theorem C1_counterexample :
    ¬ ((Vector.transform ⟨0, 0⟩ (Transform.from_translation 1 2)).dx =
        (0 : ℝ) * (Transform.from_translation 1 2).m11 +
          (0 : ℝ) * (Transform.from_translation 1 2).m21) := by
  norm_num [Vector.transform, Transform.from_translation, Transform.row_major]

/-- C1 (amended): `Vector::transform` applies the full affine formula,
translation included, to free vectors, exactly as for points:
`dx' = v.dx*m11 + v.dy*m21 + m31` and `dy' = v.dx*m12 + v.dy*m22 + m32`. -/
theorem C1_vector_transform_affine (v : Vector) (t : Transform) :
    (v.transform t).dx = v.dx * t.m11 + v.dy * t.m21 + t.m31 ∧
    (v.transform t).dy = v.dx * t.m12 + v.dy * t.m22 + t.m32 :=
  ⟨rfl, rfl⟩

/-- C5: composition follows application order: transforming a point by
`a.post_mul(b)` equals transforming by `a` then by `b`; the translation row
of the product is `a.m31*b.m11 + a.m32*b.m21 + b.m31` (and similarly for
`m32`); and `a.pre_mul(b) = b.post_mul(a)`. -/
theorem C5_post_mul_composition (p : Point) (a b : Transform) :
    p.transform (a.post_mul b) = (p.transform a).transform b ∧
    (a.post_mul b).m31 = a.m31 * b.m11 + a.m32 * b.m21 + b.m31 ∧
    (a.post_mul b).m32 = a.m31 * b.m12 + a.m32 * b.m22 + b.m32 ∧
    a.pre_mul b = b.post_mul a := by
  refine ⟨?_, rfl, rfl, rfl⟩
  simp only [Point.transform, Point.to_vector, Vector.to_point, Point.add_vector,
    Point.zero, Vector.transform, Transform.post_mul, Transform.row_major,
    Point.mk.injEq]
  constructor <;> ring

/-- C8: lifting a 2D `Transform` to a `Transform3d` preserves its action on
vectors exactly; in particular lifting `from_translation(1,2)` and applying
it to the zero vector yields `(1,2)`. -/
theorem C8_lift_preserves_action (t : Transform) (v : Vector) :
    (Transform3d.from_transform t).transform_vector v = v.transform t ∧
    (Transform3d.from_transform (Transform.from_translation 1 2)).transform_vector
        ⟨0, 0⟩ = ⟨1, 2⟩ := by
  constructor <;>
  · simp only [Transform3d.from_transform, Transform3d.transform_vector,
      Transform3d.transform_vector_impl, Transform3d.transform_vector4d,
      Transform3d.row_major, Vector4d.truncate, Vector.transform,
      Transform.from_translation, Transform.row_major, Vector.mk.injEq]
    constructor <;> ring

/-- C9: `Point::transform` and `Vector::transform` use exactly the same
formula (both add the translation row): on equal input coordinates they
produce equal output coordinates, and `transform_point(p) =
transform_vector(p.to_vector()).to_point()`. -/
theorem C9_point_vector_same_formula (t : Transform) (x y : ℝ) :
    (Point.transform ⟨x, y⟩ t).x = (Vector.transform ⟨x, y⟩ t).dx ∧
    (Point.transform ⟨x, y⟩ t).y = (Vector.transform ⟨x, y⟩ t).dy ∧
    Point.transform ⟨x, y⟩ t = ((Point.mk x y).to_vector.transform t).to_point := by
  refine ⟨?_, ?_, rfl⟩ <;>
    simp [Point.transform, Point.to_vector, Vector.to_point, Point.add_vector,
      Point.zero, Vector.transform]

/-- C3: `inverse()` returns `None` exactly when the determinant is zero
(no tolerance, no panic), and otherwise returns the adjugate over the
determinant: entries `m22/det, -m12/det, -m21/det, m11/det,
(m21*m32 - m22*m31)/det, (m31*m12 - m11*m32)/det`. -/
theorem C3_inverse_none_iff_det_zero (t : Transform) :
    (t.inverse = none ↔ t.determinant = 0) ∧
    (t.determinant ≠ 0 →
      t.inverse = some (Transform.row_major
        (t.m22 / t.determinant) (-t.m12 / t.determinant)
        (-t.m21 / t.determinant) (t.m11 / t.determinant)
        ((t.m21 * t.m32 - t.m22 * t.m31) / t.determinant)
        ((t.m31 * t.m12 - t.m11 * t.m32) / t.determinant))) := by
  constructor
  · unfold Transform.inverse
    split_ifs with h
    · simp [h]
    · simp [h]
  · intro h
    unfold Transform.inverse
    rw [if_neg h]
    congr 1
    unfold Transform.row_major
    simp only [Transform.mk.injEq]
    refine ⟨by ring, by ring, by ring, by ring, by ring, by ring⟩

/-- Witness for C3 at the concrete matrix `row_major 2 0 0 3 1 1`
(determinant 6). -/
theorem C3_witness :
    (((Transform.row_major 2 0 0 3 1 1).inverse = none ↔
        (Transform.row_major 2 0 0 3 1 1).determinant = 0) ∧
      (Transform.row_major 2 0 0 3 1 1).inverse = some (Transform.row_major
        ((Transform.row_major 2 0 0 3 1 1).m22 /
          (Transform.row_major 2 0 0 3 1 1).determinant)
        (-(Transform.row_major 2 0 0 3 1 1).m12 /
          (Transform.row_major 2 0 0 3 1 1).determinant)
        (-(Transform.row_major 2 0 0 3 1 1).m21 /
          (Transform.row_major 2 0 0 3 1 1).determinant)
        ((Transform.row_major 2 0 0 3 1 1).m11 /
          (Transform.row_major 2 0 0 3 1 1).determinant)
        (((Transform.row_major 2 0 0 3 1 1).m21 *
            (Transform.row_major 2 0 0 3 1 1).m32 -
          (Transform.row_major 2 0 0 3 1 1).m22 *
            (Transform.row_major 2 0 0 3 1 1).m31) /
          (Transform.row_major 2 0 0 3 1 1).determinant)
        (((Transform.row_major 2 0 0 3 1 1).m31 *
            (Transform.row_major 2 0 0 3 1 1).m12 -
          (Transform.row_major 2 0 0 3 1 1).m11 *
            (Transform.row_major 2 0 0 3 1 1).m32) /
          (Transform.row_major 2 0 0 3 1 1).determinant))) :=
  ⟨(C3_inverse_none_iff_det_zero _).1,
    (C3_inverse_none_iff_det_zero _).2
      (by norm_num [Transform.determinant, Transform.row_major])⟩

/-- C4: for any `T` with `T.inverse() = Some(U)` (determinant non-zero),
`T.post_mul(U)` is exactly the identity matrix over exact arithmetic. -/
theorem C4_inverse_roundtrip (t u : Transform) (h : t.inverse = some u) :
    t.post_mul u = Transform.identity := by
  unfold Transform.inverse at h
  split_ifs at h with hd
  have hu := Option.some.inj h
  subst hu
  have hdet : t.m11 * t.m22 - t.m12 * t.m21 ≠ 0 := by
    simpa [Transform.determinant] using hd
  simp only [Transform.post_mul, Transform.row_major, Transform.identity,
    Transform.determinant, Transform.mk.injEq]
  refine ⟨?_, ?_, ?_, ?_, ?_, ?_⟩ <;> field_simp <;> ring

/-- Witness for C4 at the pure translation `row_major 1 0 0 1 5 7`, whose
inverse is the opposite translation. -/
theorem C4_witness :
    (Transform.row_major 1 0 0 1 5 7).post_mul
        (Transform.row_major 1 0 0 1 (-5) (-7)) = Transform.identity :=
  C4_inverse_roundtrip _ _ (by
    norm_num [Transform.inverse, Transform.determinant, Transform.row_major,
      Transform.mk.injEq])

/-- C6: `Transform3d::ortho(l,r,b,t,n,f)` equals
`from_scale(2/(r-l), 2/(b-t), -2/(f-n)).post_mul(from_translation(-(r+l)/(r-l),
-(b+t)/(b-t), -(f+n)/(f-n)))`, for non-degenerate argument ranges. -/
theorem C6_ortho_is_scale_then_translate (l r b t n f : ℝ)
    (h1 : r ≠ l) (h2 : b ≠ t) (h3 : f ≠ n) :
    Transform3d.ortho l r b t n f =
      (Transform3d.from_scale (2 / (r - l)) (2 / (b - t))
          (-2 / (f - n))).post_mul
        (Transform3d.from_translation (-(r + l) / (r - l))
          (-(b + t) / (b - t)) (-(f + n) / (f - n))) :=
  rfl

/-- Witness for C6 on the unit cube `ortho 0 1 0 1 0 1`. -/
theorem C6_witness :
    Transform3d.ortho 0 1 0 1 0 1 =
      (Transform3d.from_scale (2 / (1 - 0)) (2 / (0 - 1))
          (-2 / (1 - 0))).post_mul
        (Transform3d.from_translation (-(1 + 0) / (1 - 0))
          (-(0 + 1) / (0 - 1)) (-(1 + 0) / (1 - 0))) :=
  C6_ortho_is_scale_then_translate 0 1 0 1 0 1 (by norm_num) (by norm_num)
    (by norm_num)

/-- `if p < m then p else m` is `min m p`: the `Rect::from_iter` loop keeps
the running minimum. -/
theorem if_lt_eq_min (p m : ℝ) : (if p < m then p else m) = min m p := by
  rcases lt_or_le p m with h | h
  · rw [if_pos h, min_eq_right h.le]
  · rw [if_neg (not_lt.mpr h), min_eq_left h]

/-- `if p > m then p else m` is `max m p`: the `Rect::from_iter` loop keeps
the running maximum. -/
theorem if_gt_eq_max (p m : ℝ) : (if p > m then p else m) = max m p := by
  rcases lt_or_le m p with h | h
  · rw [if_pos h, max_eq_right h.le]
  · rw [if_neg (not_lt.mpr h), max_eq_left h]

/-- C7: `Rect::transform` is the axis-aligned bounding box (component-wise
min/max) of the four transformed corners, while `Transform3d::transform_rect`
returns the four transformed corners as a `Quad` with no bounding-box
reduction. -/
theorem C7_rect_aabb_vs_quad (r : Rect) (t : Transform) (m : Transform3d) :
    r.transform t = Rect.from_top_right_bottom_left
      (min (min (min (r.top_left.transform t).y (r.top_right.transform t).y)
        (r.bottom_right.transform t).y) (r.bottom_left.transform t).y)
      (max (max (max (r.top_left.transform t).x (r.top_right.transform t).x)
        (r.bottom_right.transform t).x) (r.bottom_left.transform t).x)
      (max (max (max (r.top_left.transform t).y (r.top_right.transform t).y)
        (r.bottom_right.transform t).y) (r.bottom_left.transform t).y)
      (min (min (min (r.top_left.transform t).x (r.top_right.transform t).x)
        (r.bottom_right.transform t).x) (r.bottom_left.transform t).x) ∧
    m.transform_rect r = ⟨m.transform_point r.top_left,
      m.transform_point r.top_right, m.transform_point r.bottom_right,
      m.transform_point r.bottom_left⟩ := by
  refine ⟨?_, rfl⟩
  simp only [Rect.transform, Rect.clockwise_points, List.map_cons, List.map_nil,
    Rect.from_iter, List.foldl_cons, List.foldl_nil, from_iter_step,
    if_lt_eq_min, if_gt_eq_max]

/-- `Angle::normalize` shifts the radians by an integer multiple of `2π`. -/
theorem normalize_radians_eq (a : Angle) :
    ∃ n : ℤ, a.normalize.radians = a.radians - (n : ℝ) * (2 * π) :=
  ⟨⌊a.radians / (2 * π) + 1 / 2⌋, by
    show a.radians - 2 * π * ((⌊a.radians / (2 * π) + 1 / 2⌋ : ℤ) : ℝ) = _
    ring⟩

/-- `Angle::normalize` lands in `[-π, π)`, as its doc comment states. -/
theorem normalize_radians_mem (a : Angle) :
    -π ≤ a.normalize.radians ∧ a.normalize.radians < π := by
  have h2π : (0 : ℝ) < 2 * π := by positivity
  have h1 : ((⌊a.radians / (2 * π) + 1 / 2⌋ : ℤ) : ℝ) ≤
      a.radians / (2 * π) + 1 / 2 := Int.floor_le _
  have h2 : a.radians / (2 * π) + 1 / 2 <
      ((⌊a.radians / (2 * π) + 1 / 2⌋ : ℤ) : ℝ) + 1 := Int.lt_floor_add_one _
  have hx1 : (((⌊a.radians / (2 * π) + 1 / 2⌋ : ℤ) : ℝ) - 1 / 2) * (2 * π) ≤
      a.radians := by
    rw [← le_div_iff h2π]
    linarith
  have hx2 : a.radians <
      (((⌊a.radians / (2 * π) + 1 / 2⌋ : ℤ) : ℝ) + 1 / 2) * (2 * π) := by
    rw [← div_lt_iff h2π]
    linarith
  constructor
  · show -π ≤ a.radians - 2 * π * ((⌊a.radians / (2 * π) + 1 / 2⌋ : ℤ) : ℝ)
    nlinarith
  · show a.radians - 2 * π * ((⌊a.radians / (2 * π) + 1 / 2⌋ : ℤ) : ℝ) < π
    nlinarith

/-- A vector with a non-zero component has positive magnitude. -/
theorem magnitude_pos (a b : ℝ) (h : a ≠ 0 ∨ b ≠ 0) :
    0 < (Vector.mk a b).magnitude := by
  unfold Vector.magnitude Vector.magnitude_squared Vector.dot_product
  apply Real.sqrt_pos.mpr
  rcases h with h | h
  · nlinarith [mul_self_pos.mpr h, mul_self_nonneg b]
  · nlinarith [mul_self_pos.mpr h, mul_self_nonneg a]

/-- The complex number modelling `atan2(-b, a)` is non-zero when the vector
`(a, b)` is. -/
theorem complex_ne_zero_of_vector (a b : ℝ) (h : a ≠ 0 ∨ b ≠ 0) :
    (⟨a, -b⟩ : ℂ) ≠ 0 := by
  intro hz
  rw [Complex.ext_iff] at hz
  simp only [Complex.zero_re, Complex.zero_im, neg_eq_zero] at hz
  rcases h with h | h
  · exact h hz.1
  · exact h hz.2

/-- `Vector::angle` is the argument of the complex number `a - b*i`. -/
theorem angle_radians_eq_arg (a b : ℝ) :
    (Vector.mk a b).angle.radians = Complex.arg ⟨a, -b⟩ := rfl

/-- `Vector::magnitude` is the complex absolute value of `a - b*i`. -/
theorem magnitude_eq_abs (a b : ℝ) :
    (Vector.mk a b).magnitude = Complex.abs ⟨a, -b⟩ := by
  unfold Vector.magnitude Vector.magnitude_squared Vector.dot_product
  rw [Complex.abs_apply, Complex.normSq_mk]
  congr 1
  ring

/-- Cosine of a row's angle times the row's magnitude recovers the first
row component. -/
theorem cos_angle_mul_magnitude (a b : ℝ) (h : a ≠ 0 ∨ b ≠ 0) :
    Real.cos (Vector.mk a b).angle.radians * (Vector.mk a b).magnitude = a := by
  have hz := complex_ne_zero_of_vector a b h
  rw [angle_radians_eq_arg, magnitude_eq_abs, Complex.cos_arg hz]
  exact div_mul_cancel₀ a (Complex.abs.pos hz).ne'

/-- Sine of a row's angle times the row's magnitude recovers the negated
second row component. -/
theorem sin_angle_mul_magnitude (a b : ℝ) (h : a ≠ 0 ∨ b ≠ 0) :
    Real.sin (Vector.mk a b).angle.radians * (Vector.mk a b).magnitude = -b := by
  have hz := complex_ne_zero_of_vector a b h
  rw [angle_radians_eq_arg, magnitude_eq_abs, Complex.sin_arg]
  exact div_mul_cancel₀ (-b) (Complex.abs.pos hz).ne'

/-- C10: `decompose()` always reports a non-negative x-scale (it is a row
magnitude, so any reflection shows up only in the sign of `scale.dy`), and
the skew angle lies in `[-π/2, π/2]`. -/
theorem C10_decompose_invariants (t : Transform) :
    0 ≤ t.decompose.scale.dx ∧
    -(π / 2) ≤ t.decompose.skew.radians ∧ t.decompose.skew.radians ≤ π / 2 := by
  refine ⟨Real.sqrt_nonneg _, ?_⟩
  obtain ⟨hlo, hhi⟩ := normalize_radians_mem
    ((Vector.angle ⟨t.m21, t.m22⟩).sub (Vector.angle ⟨t.m11, t.m12⟩))
  simp only [Transform.decompose]
  split_ifs with hneg
  · simp only [Angle.abs_radians, Angle.sub, Angle.FRAC_PI_2] at hlo hhi hneg ⊢
    rw [abs_of_neg hneg]
    constructor <;> linarith
  · simp only [Angle.sub, Angle.FRAC_PI_2] at hlo hhi hneg ⊢
    constructor <;> linarith

/-- C2: for any transform whose two linear rows are non-zero,
`from_decomposed(decompose(T))` reproduces all six fields of `T` exactly
over exact arithmetic — in the orientation-preserving case and in the
reflective case alike, thanks to the matching sign-flip tie-breaks. -/
theorem C2_decompose_roundtrip (t : Transform)
    (hx : t.m11 ≠ 0 ∨ t.m12 ≠ 0) (hy : t.m21 ≠ 0 ∨ t.m22 ≠ 0) :
    Transform.from_decomposed t.decompose = t := by
  obtain ⟨a11, a12, a21, a22, a31, a32⟩ := t
  have hrx : 0 < (Vector.mk a11 a12).magnitude := magnitude_pos a11 a12 hx
  have hry : 0 < (Vector.mk a21 a22).magnitude := magnitude_pos a21 a22 hy
  have hc1 := cos_angle_mul_magnitude a11 a12 hx
  have hs1 := sin_angle_mul_magnitude a11 a12 hx
  have hc2 := cos_angle_mul_magnitude a21 a22 hy
  have hs2 := sin_angle_mul_magnitude a21 a22 hy
  obtain ⟨n, hn⟩ := normalize_radians_eq
    ((Vector.angle ⟨a21, a22⟩).sub (Vector.angle ⟨a11, a12⟩))
  rw [Angle.sub] at hn
  by_cases hneg :
      (((Vector.angle ⟨a21, a22⟩).sub
        (Vector.angle ⟨a11, a12⟩)).normalize).radians < 0
  · rw [Angle.sub] at hneg
    simp only [Transform.decompose, Angle.sub, if_pos hneg,
      Transform.from_decomposed]
    rw [if_neg (not_lt.mpr (le_of_lt (by nlinarith)))]
    simp only [Transform.row_major, Angle.cos, Angle.sin, Angle.add, Angle.neg,
      Angle.abs_radians, Angle.FRAC_PI_2, mul_one, Transform.mk.injEq]
    rw [abs_of_neg hneg]
    refine ⟨hc1, ?_, ?_, ?_, trivial, trivial⟩
    · rw [neg_mul, hs1, neg_neg]
    · rw [show (Vector.angle ⟨a11, a12⟩).radians +
          -(-(Angle.mk ((Vector.angle ⟨a21, a22⟩).radians -
            (Vector.angle ⟨a11, a12⟩).radians)).normalize.radians - π / 2) =
          ((Vector.angle ⟨a21, a22⟩).radians + π / 2) +
            ((-n : ℤ) : ℝ) * (2 * π) by
        rw [hn]; push_cast; ring]
      rw [Real.sin_add_int_mul_two_pi, Real.sin_add_pi_div_two]
      exact hc2
    · rw [show (Vector.angle ⟨a11, a12⟩).radians +
          -(-(Angle.mk ((Vector.angle ⟨a21, a22⟩).radians -
            (Vector.angle ⟨a11, a12⟩).radians)).normalize.radians - π / 2) =
          ((Vector.angle ⟨a21, a22⟩).radians + π / 2) +
            ((-n : ℤ) : ℝ) * (2 * π) by
        rw [hn]; push_cast; ring]
      rw [Real.cos_add_int_mul_two_pi, Real.cos_add_pi_div_two]
      rw [neg_mul, hs2, neg_neg]
  · rw [Angle.sub] at hneg
    simp only [Transform.decompose, Angle.sub, if_neg hneg,
      Transform.from_decomposed]
    rw [if_pos (show (Vector.mk a11 a12).magnitude *
        ((Vector.mk a21 a22).magnitude * -1) < 0 by nlinarith)]
    simp only [Transform.row_major, Angle.cos, Angle.sin, Angle.add,
      Angle.FRAC_PI_2, Transform.mk.injEq]
    refine ⟨hc1, ?_, ?_, ?_, trivial, trivial⟩
    · rw [neg_mul, hs1, neg_neg]
    · rw [show (Vector.angle ⟨a11, a12⟩).radians +
          ((Angle.mk ((Vector.angle ⟨a21, a22⟩).radians -
            (Vector.angle ⟨a11, a12⟩).radians)).normalize.radians - π / 2) =
          ((Vector.angle ⟨a21, a22⟩).radians - π / 2) +
            ((-n : ℤ) : ℝ) * (2 * π) by
        rw [hn]; push_cast; ring]
      rw [Real.sin_add_int_mul_two_pi, Real.sin_sub_pi_div_two]
      rw [show -Real.cos ((Vector.angle ⟨a21, a22⟩).radians) *
          ((Vector.mk a21 a22).magnitude * -1) =
          Real.cos ((Vector.angle ⟨a21, a22⟩).radians) *
            (Vector.mk a21 a22).magnitude by ring]
      exact hc2
    · rw [show (Vector.angle ⟨a11, a12⟩).radians +
          ((Angle.mk ((Vector.angle ⟨a21, a22⟩).radians -
            (Vector.angle ⟨a11, a12⟩).radians)).normalize.radians - π / 2) =
          ((Vector.angle ⟨a21, a22⟩).radians - π / 2) +
            ((-n : ℤ) : ℝ) * (2 * π) by
        rw [hn]; push_cast; ring]
      rw [Real.cos_add_int_mul_two_pi, Real.cos_sub_pi_div_two]
      rw [show Real.sin ((Vector.angle ⟨a21, a22⟩).radians) *
          ((Vector.mk a21 a22).magnitude * -1) =
          -(Real.sin ((Vector.angle ⟨a21, a22⟩).radians) *
            (Vector.mk a21 a22).magnitude) by ring]
      rw [hs2, neg_neg]

/-- Witness for C2 at the reflective test matrix
`row_major 1 0.5 0.5 (-0.866025) 0.3 0.6` (negative determinant), the
spec's own tie-break test case. -/
theorem C2_witness :
    Transform.from_decomposed
        (Transform.row_major 1 0.5 0.5 (-0.866025) 0.3 0.6).decompose =
      Transform.row_major 1 0.5 0.5 (-0.866025) 0.3 0.6 :=
  C2_decompose_roundtrip _ (Or.inl (by norm_num [Transform.row_major]))
    (Or.inl (by norm_num [Transform.row_major]))

end Gee
